import Mathlib

/-!
Verification of the partition lifecycle and selection subsystem of
stac-fastapi-elasticsearch-opensearch (`stac_fastapi/sfeos_helpers/search_engine`).

The development is a shallow embedding of the synchronous code paths:

* `adapters.py` (`SearchEngineAdapter.create_datetime_index_sync`,
  `update_index_alias_sync`, `create_index_name`),
* `managers.py` (`IndexSizeManager`, `DatetimeIndexManager`),
* `selection/cache_manager.py` (`IndexCacheManager`, `SyncIndexAliasLoader`),
* `selection/sync_selectors.py` (`SyncDatetimeBasedIndexSelector`),
* `selection/unfiltered_selector.py` (`UnfilteredIndexSelector`),
* `sync_inserters.py` (`SyncDatetimeIndexInserter`),
* `database/document.py` (`mk_item_id`).

The search engine (Elasticsearch/OpenSearch) is modelled as explicit state:
a list of physical indexes with their current item alias, the selector's
process-wide alias cache, the set of alias names whose index the engine
reports as oversized, and a log of engine calls (index creation, alias
update, stats).  Every Python function becomes a Lean function from state
to (result, state); a raised exception becomes an `Except.error` result.

Dates are calendar triples (year, month, day); comparisons are the
lexicographic tuple comparison used by Python `datetime.date`, and
`str(date)` is the zero-padded ISO form.  Items carry `properties.datetime`
as `Option Date` (`none` models a missing/null/empty datetime value, the
falsy case of `_validate_product_datetime`; time of day never influences
this subsystem, which is date-granular).

Helpers imported from `stac_fastapi.sfeos_helpers.database` and `.mappings`
(`extract_date`, `extract_first_date_from_index`, `filter_indexes_by_datetime`,
`index_alias_by_collection_id`, `indices`, `ITEM_INDICES`, the index name
prefix and the sanitize table) are not part of the given sources; they are
modelled from the spec and marked `Modelled from the spec:` below.
-/

/-- Calendar date, as Python `datetime.date`: a (year, month, day) triple. -/
structure Date where
  year : Nat
  month : Nat
  day : Nat
deriving DecidableEq

/-- Python `date` comparison: lexicographic on (year, month, day). -/
def Date.blt (a b : Date) : Bool :=
  decide (a.year < b.year ∨ (a.year = b.year ∧
    (a.month < b.month ∨ (a.month = b.month ∧ a.day < b.day))))

/-- Non-strict date comparison, `a ≤ b` as the negation of `b < a`. -/
def Date.ble (a b : Date) : Bool := !(Date.blt b a)

/-- Gregorian leap year rule, as Python `calendar.isleap`. -/
def isLeapYear (y : Nat) : Bool :=
  decide ((y % 4 = 0 ∧ y % 100 ≠ 0) ∨ y % 400 = 0)

/-- Number of days of month `m` of year `y`. -/
def daysInMonth (y m : Nat) : Nat :=
  if m = 2 then (if isLeapYear y then 29 else 28)
  else if m = 4 ∨ m = 6 ∨ m = 9 ∨ m = 11 then 30
  else 31

/-- A valid calendar date (what Python `datetime.date` can hold). -/
def DateValid (d : Date) : Prop :=
  1 ≤ d.month ∧ d.month ≤ 12 ∧ 1 ≤ d.day ∧ d.day ≤ daysInMonth d.year d.month

instance (d : Date) : Decidable (DateValid d) := by
  unfold DateValid; infer_instance

/-- Python `date + timedelta(days=1)`. -/
def Date.nextDay (d : Date) : Date :=
  if d.day < daysInMonth d.year d.month then ⟨d.year, d.month, d.day + 1⟩
  else if d.month < 12 then ⟨d.year, d.month + 1, 1⟩
  else ⟨d.year + 1, 1, 1⟩

/-- Python `date - timedelta(days=1)`. -/
def Date.prevDay (d : Date) : Date :=
  if 1 < d.day then ⟨d.year, d.month, d.day - 1⟩
  else if 1 < d.month then ⟨d.year, d.month - 1, daysInMonth d.year (d.month - 1)⟩
  else ⟨d.year - 1, 12, 31⟩

/-- Left-pad a decimal string with zeros to width `w`. -/
def padZeros (w : Nat) (s : String) : String :=
  (List.replicate (w - s.length) '0').asString ++ s

/-- Python `str(date)`: zero-padded ISO form `YYYY-MM-DD`. -/
def Date.toIso (d : Date) : String :=
  padZeros 4 (toString d.year) ++ "-" ++ padZeros 2 (toString d.month) ++ "-" ++
    padZeros 2 (toString d.day)

/-- Python string `<` on char lists: lexicographic by code point. -/
def strLtCore : List Char → List Char → Bool
  | [], [] => false
  | [], _ :: _ => true
  | _ :: _, [] => false
  | a :: as, b :: bs =>
    if a.toNat < b.toNat then true
    else if b.toNat < a.toNat then false
    else strLtCore as bs

/-- Python string `<`, lexicographic by code point. -/
def strLt (a b : String) : Bool := strLtCore a.data b.data

/-- Insert a string into an ascending list (helper of `sortStr`). -/
def insertStr (x : String) : List String → List String
  | [] => [x]
  | y :: ys => if strLt y x then y :: insertStr x ys else x :: y :: ys

/-- Python `list.sort()` on strings: ascending lexicographic order. -/
def sortStr (l : List String) : List String := l.foldr insertStr []

/-- Decimal digit test on a character. -/
def isDig (c : Char) : Bool := decide (48 ≤ c.toNat ∧ c.toNat ≤ 57)

/-- Decimal value of a digit character. -/
def digVal (c : Char) : Nat := c.toNat - 48

/-- Parse a leading `YYYY-MM-DD` shaped prefix of a char list. -/
def parseDateAt : List Char → Option Date
  | y0 :: y1 :: y2 :: y3 :: h0 :: m0 :: m1 :: h1 :: d0 :: d1 :: _ =>
    if isDig y0 && isDig y1 && isDig y2 && isDig y3 && (h0 == '-') &&
       isDig m0 && isDig m1 && (h1 == '-') && isDig d0 && isDig d1 then
      some ⟨digVal y0 * 1000 + digVal y1 * 100 + digVal y2 * 10 + digVal y3,
            digVal m0 * 10 + digVal m1, digVal d0 * 10 + digVal d1⟩
    else none
  | _ => none

/-- Scan a char list for the first `YYYY-MM-DD` shaped substring. -/
def extractFirstDateAux : List Char → Option Date
  | [] => none
  | c :: rest =>
    match parseDateAt (c :: rest) with
    | some d => some d
    | none => extractFirstDateAux rest

/-- Modelled from the spec: `extract_first_date_from_index` (from the
    `database` helpers, not among the given sources) recovers "the start
    date encoded in each partition's name" — the first date-shaped
    substring of the index/alias name.  On a name holding no date the
    source would raise; the model returns a dummy date. -/
def extract_first_date_from_index (name : String) : Date :=
  (extractFirstDateAux name.data).getD ⟨0, 0, 0⟩

/-- Modelled from the spec: collection IDs are sanitized ("unsupported
    characters stripped, lower-cased") before being embedded in a generated
    name; the exact strip table (`_ES_INDEX_NAME_UNSUPPORTED_CHARS_TABLE`
    from `mappings`) is not among the given sources, so the model keeps
    the lower-casing step, which is all the verified scenarios exercise. -/
def sanitizeId (s : String) : String := ⟨s.data.map Char.toLower⟩

/-- Modelled from the spec: the item-index name prefix (`ITEMS_INDEX_PREFIX`
    from `mappings`, not among the given sources).  Physical index name =
    prefix + alias; the flows below address partitions by alias. -/
def itemsPre : String := "items_"

/-- Modelled from the spec: `ITEM_INDICES`, the catalog-wide wildcard
    pattern covering all item partitions. -/
def ITEM_INDICES : String := itemsPre ++ "*"

/-- Open-partition alias generated by `SearchEngineAdapter.create_index_name`
    (without the physical-name prefix): `sanitize(collectionId) + "_" + startDate`. -/
def openAliasName (k : String) (d : Date) : String := k ++ "_" ++ d.toIso

/-- Alias of a closed partition: `update_index_alias_sync` renames
    `old_alias` to `f"{old_alias}-{end_date}"`. -/
def closedAliasName (k : String) (startD endD : Date) : String :=
  openAliasName k startD ++ "-" ++ endD.toIso

/-- `mk_item_id` from `database/document.py`: item id and collection id
    joined by `|`. -/
def mk_item_id (item_id collection_id : String) : String :=
  item_id ++ "|" ++ collection_id

/-- A catalog item (STAC product): its id, collection, and
    `properties.datetime` (`none` = missing/null/empty). -/
structure Item where
  id : String
  collection : String
  datetime : Option Date
deriving DecidableEq

/-- A physical engine index: the sanitized collection key and start date
    identify the physical index (its immutable name); `alias` is the
    current, renamable item alias. -/
structure PhysIndex where
  collectionKey : String
  start : Date
  idxAlias : String
deriving DecidableEq

/-- Engine calls recorded by the model, for counting and absence claims. -/
inductive Event where
  | createIndex (collectionKey : String) (start : Date)
  | updateAlias (oldAlias : String) (endDate : Date)
  | statsCall (name : String)
deriving DecidableEq

/-- The state the subsystem acts on: the engine's indexes, the selector's
    process-wide alias cache (a snapshot of the engine's alias metadata,
    `none` when unloaded), the set of alias names whose index the engine's
    stats report as over the size budget, and the log of engine calls. -/
structure SysState where
  engine : List PhysIndex
  cache : Option (List PhysIndex)
  oversized : List String
  events : List Event
deriving DecidableEq

/-- Append an engine call to the log. -/
def addEvent (s : SysState) (e : Event) : SysState :=
  { s with events := s.events ++ [e] }

/-- Raised Python exceptions: the HTTP 400 of `_validate_product_datetime`,
    and other runtime errors (`KeyError`/`IndexError`/`TypeError`). -/
inductive Err where
  | http400
  | pyError
deriving DecidableEq

/-- `SearchEngineAdapter.create_datetime_index_sync`: create the physical
    index named from the collection and start date, with the collection
    alias and the open item alias; an "already exists" engine response is
    ignored (`ignore 400`).  Returns the item alias name. -/
def create_datetime_index_sync (collection_id : String) (start_date : Date)
    (s : SysState) : String × SysState :=
  let k := sanitizeId collection_id
  let alias_name := openAliasName k start_date
  let engine2 :=
    if s.engine.any (fun p => p.collectionKey == k && p.start == start_date)
    then s.engine
    else s.engine ++ [⟨k, start_date, alias_name⟩]
  (alias_name, addEvent { s with engine := engine2 } (.createIndex k start_date))

/-- `SearchEngineAdapter.update_index_alias_sync`: one atomic alias-update
    request removing `old_alias` and adding `f"{old_alias}-{end_date}"` on
    the same physical index.  Returns the new alias. -/
def update_index_alias_sync (end_date : Date) (old_alias : String)
    (s : SysState) : String × SysState :=
  let new_alias := old_alias ++ "-" ++ end_date.toIso
  let engine2 := s.engine.map
    (fun p => if p.idxAlias == old_alias then { p with idxAlias := new_alias } else p)
  (new_alias, addEvent { s with engine := engine2 } (.updateAlias old_alias end_date))

/-- `IndexSizeManager.is_index_oversized_sync`: one engine stats call
    (recorded as `Event.statsCall`), compared against the size budget. -/
def is_index_oversized_sync (index_name : String) (s : SysState) :
    Bool × SysState :=
  (s.oversized.contains index_name, addEvent s (.statsCall index_name))

/-- `SyncIndexAliasLoader.load_aliases`: reload the alias snapshot from the
    engine's alias metadata and store it in the cache. -/
def load_aliases (s : SysState) : List PhysIndex × SysState :=
  (s.engine, { s with cache := some s.engine })

/-- `SyncIndexAliasLoader.get_aliases`: the cached snapshot if present,
    else a reload.  (TTL expiry never fires inside one request flow; the
    timed cache itself is verified separately as `IndexCacheManager`.) -/
def get_aliases (s : SysState) : List PhysIndex × SysState :=
  match s.cache with
  | some m => (m, s)
  | none => load_aliases s

/-- `SyncDatetimeBasedIndexSelector.refresh_cache`: force a reload. -/
def refresh_cache (s : SysState) : List PhysIndex × SysState :=
  load_aliases s

/-- `SyncIndexAliasLoader.get_collection_indexes`: the item aliases the
    snapshot holds under the collection's base alias
    (`index_alias_by_collection_id`, i.e. the sanitized collection key). -/
def get_collection_indexes (collection_id : String) (s : SysState) :
    List String × SysState :=
  let pr := get_aliases s
  ((pr.1.filter (fun p => p.collectionKey == sanitizeId collection_id)).map
      (fun p => p.idxAlias),
    pr.2)

/-- Keep-test of `filter_indexes_by_datetime` (see there). -/
def fidKeep (gte lte : Option Date) (a : String) (next : Option String) : Bool :=
  (match lte with
   | none => true
   | some l => Date.ble (extract_first_date_from_index a) l) &&
  (match next with
   | none => true
   | some nx =>
     match gte with
     | none => true
     | some g => Date.blt g (extract_first_date_from_index nx))

/-- Walk of `filter_indexes_by_datetime` over the sorted names, testing
    each partition against its successor. -/
def fidGo (gte lte : Option Date) : List String → List String
  | [] => []
  | [a] => if fidKeep gte lte a none then [a] else []
  | a :: b :: rest =>
    (if fidKeep gte lte a (some b) then [a] else []) ++ fidGo gte lte (b :: rest)

/-- Modelled from the spec: `filter_indexes_by_datetime` (from the
    `database` helpers, not among the given sources) keeps the partitions
    whose date range intersects `[gte, lte]`, comparing the start date
    encoded in each partition's name: `partition.start ≤ range.lte AND
    (next_partition.start is None OR next_partition.start > range.gte)`,
    with partitions in start-date (name) order and a missing bound
    unrestrictive. -/
def filter_indexes_by_datetime (idxs : List String) (gte lte : Option Date) :
    List String :=
  fidGo gte lte (sortStr idxs)

/-- Loop body of `SyncDatetimeBasedIndexSelector.select_indexes` over the
    requested collection ids. -/
def selectLoop (gte lte : Option Date) :
    List String → SysState → List String × SysState
  | [], s => ([], s)
  | c :: cs, s =>
    let pr := get_collection_indexes c s
    let filtered := filter_indexes_by_datetime pr.1 gte lte
    let pr2 := selectLoop gte lte cs pr.2
    (filtered ++ pr2.1, pr2.2)

/-- `SyncDatetimeBasedIndexSelector.select_indexes`: with a truthy
    collection-id list, the comma-joined datetime-filtered aliases of the
    named collections (empty string when nothing matches); otherwise the
    catalog-wide `ITEM_INDICES` wildcard.  The datetime range is the
    `gte`/`lte` pair of the `datetime_search` dict. -/
def select_indexes (collection_ids : Option (List String))
    (gte lte : Option Date) (s : SysState) : String × SysState :=
  match collection_ids with
  | some (c :: cs) =>
    let pr := selectLoop gte lte (c :: cs) s
    ((if pr.1.isEmpty then "" else String.intercalate "," pr.1), pr.2)
  | _ => (ITEM_INDICES, s)

/-- Modelled from the spec: the `indices` helper (from the `database`
    helpers, not among the given sources) used by the unfiltered selector:
    every known partition for the given collections, or the catalog-wide
    wildcard pattern when no collections are given. -/
def indicesFor (collection_ids : Option (List String)) (s : SysState) : String :=
  match collection_ids with
  | some (c :: cs) =>
    String.intercalate ","
      (((c :: cs).map (fun id =>
        (s.engine.filter (fun p => p.collectionKey == sanitizeId id)).map
          (fun p => p.idxAlias))).flatten)
  | _ => ITEM_INDICES

/-- `UnfilteredIndexSelector.select_indexes`: returns `indices(collection_ids)`;
    the `datetime_search` argument is taken and ignored. -/
def unfiltered_select_indexes (collection_ids : Option (List String))
    (_gte _lte : Option Date) (s : SysState) : String :=
  indicesFor collection_ids s

/-- `DatetimeIndexManager._validate_product_datetime`: the product's
    `properties.datetime`, or HTTP 400 ("Product datetime is required for
    indexing") when it is falsy. -/
def validate_product_datetime (product : Item) : Except Err Date :=
  match product.datetime with
  | some d => .ok d
  | none => .error .http400

/-- `DatetimeIndexManager.handle_new_collection_sync`: create the first
    datetime partition of a collection, starting at the product's date. -/
def handle_new_collection_sync (collection_id : String) (product_datetime : Date)
    (s : SysState) : String × SysState :=
  create_datetime_index_sync collection_id product_datetime s

/-- `DatetimeIndexManager.handle_early_date_sync`: create a partition
    starting at the early item's date, then rename the alias of that newly
    created partition with end date `end_date - 1 day`. -/
def handle_early_date_sync (collection_id : String) (start_date end_date : Date)
    (s : SysState) : String × SysState :=
  let pr := create_datetime_index_sync collection_id start_date s
  update_index_alias_sync (Date.prevDay end_date) pr.1 pr.2

/-- `DatetimeIndexManager.handle_oversized_index_sync`: when the product's
    date differs from the start date encoded in the target index's name,
    rename the target's alias with end date = product's date and create a
    partition starting the next day (returned); otherwise return the
    target unchanged. -/
def handle_oversized_index_sync (collection_id : String) (target_index : String)
    (product_datetime : Date) (s : SysState) : String × SysState :=
  let end_date := product_datetime
  let latest_index_start := extract_first_date_from_index target_index
  if end_date != latest_index_start then
    let pr := update_index_alias_sync end_date target_index s
    create_datetime_index_sync collection_id (Date.nextDay end_date) pr.2
  else (target_index, s)

/-- `SyncDatetimeIndexInserter._get_target_index_internal` (the leading
    underscore is dropped for Lean): validate the datetime, select by a
    point range, create the collection's first partition when none exist,
    redirect early-dated items, and (only with `check_size`) run the
    oversized-partition rollover on the latest partition. -/
def get_target_index_internal (collection_id : String) (product : Item)
    (check_size : Bool) (s : SysState) : Except Err String × SysState :=
  match validate_product_datetime product with
  | .error e => (.error e, s)
  | .ok product_datetime =>
    let pr := select_indexes (some [collection_id])
      (some product_datetime) (some product_datetime) s
    let target_index := pr.1
    let pr2 := get_collection_indexes collection_id pr.2
    let all_indexes := pr2.1
    let s2 := pr2.2
    if all_indexes.isEmpty then
      let pr3 := handle_new_collection_sync collection_id product_datetime s2
      (.ok pr3.1, (refresh_cache pr3.2).2)
    else
      let sorted := sortStr all_indexes
      let start_date := product_datetime
      let end_date := extract_first_date_from_index (sorted.headD "")
      if Date.blt start_date end_date then
        let pr3 := handle_early_date_sync collection_id start_date end_date s2
        (.ok pr3.1, (refresh_cache pr3.2).2)
      else if target_index != sorted.getLastD "" then
        (.ok target_index, s2)
      else if check_size then
        let pr3 := is_index_oversized_sync target_index s2
        if pr3.1 then
          let pr4 := handle_oversized_index_sync collection_id target_index
            product_datetime pr3.2
          (.ok pr4.1, (refresh_cache pr4.2).2)
        else (.ok target_index, pr3.2)
      else (.ok target_index, s2)

/-- `SyncDatetimeIndexInserter.get_target_index`: the single-item write
    path — internal resolution with the size check enabled. -/
def get_target_index (collection_id : String) (product : Item) (s : SysState) :
    Except Err String × SysState :=
  get_target_index_internal collection_id product true s

/-- Bulk action emitted by `prepare_bulk_actions`:
    `{"_index": ..., "_id": ..., "_source": ...}`. -/
structure BulkAction where
  index : String
  docId : String
  source : Item
deriving DecidableEq

/-- Split information returned by `_create_new_index_for_split`:
    `{"split_date": ..., "new_index": ...}`. -/
structure SplitInfo where
  split_date : Date
  new_index : String
deriving DecidableEq

/-- `SyncDatetimeIndexInserter._ensure_indexes_exist`: when the collection
    has no known partitions, create one starting at the first item's date
    and refresh the cache.  (An empty batch or a missing first datetime
    would raise in the source: `items[0]` / `extract_date(None)`.) -/
def ensure_indexes_exist (collection_id : String) (items : List Item)
    (s : SysState) : Except Err Unit × SysState :=
  let pr := get_collection_indexes collection_id s
  if pr.1.isEmpty then
    match items with
    | [] => (.error .pyError, pr.2)
    | first :: _ =>
      match first.datetime with
      | none => (.error .pyError, pr.2)
      | some d =>
        let pr2 := create_datetime_index_sync collection_id d pr.2
        (.ok (), (refresh_cache pr2.2).2)
  else (.ok (), pr.2)

/-- `SyncDatetimeIndexInserter._create_new_index_for_split`: when the first
    item's date differs from the date extracted from the latest index's
    name, rename the latest alias with end date = that extracted date,
    create a partition starting the day after it, and return split info;
    otherwise no split. -/
def create_new_index_for_split (collection_id : String) (latest_index : String)
    (first_item : Item) (s : SysState) : Except Err (Option SplitInfo) × SysState :=
  let current_index_end_date := extract_first_date_from_index latest_index
  match first_item.datetime with
  | none => (.error .pyError, s)
  | some first_item_date =>
    if first_item_date != current_index_end_date then
      let pr := update_index_alias_sync current_index_end_date latest_index s
      let next_day_start := Date.nextDay current_index_end_date
      let pr2 := create_datetime_index_sync collection_id next_day_start pr.2
      (.ok (some ⟨current_index_end_date, pr2.1⟩), pr2.2)
    else (.ok none, s)

/-- `SyncDatetimeIndexInserter._handle_index_splitting`: resolve the first
    item's target with the size check suppressed; when it is the latest
    known partition and that partition is oversized, compute the split. -/
def handle_index_splitting (collection_id : String) (items : List Item)
    (s : SysState) : Except Err (Option SplitInfo) × SysState :=
  let pr := get_collection_indexes collection_id s
  match (sortStr pr.1).getLast? with
  | none => (.error .pyError, pr.2)
  | some latest_index =>
    match items with
    | [] => (.error .pyError, pr.2)
    | first_item :: _ =>
      match get_target_index_internal collection_id first_item false pr.2 with
      | (.error e, s2) => (.error e, s2)
      | (.ok first_item_index, s2) =>
        if first_item_index != latest_index then (.ok none, s2)
        else
          let pr3 := is_index_oversized_sync first_item_index s2
          if pr3.1 then
            create_new_index_for_split collection_id first_item_index
              first_item pr3.2
          else (.ok none, pr3.2)

/-- Per-item target choice inside `_create_bulk_actions`: with split info,
    items dated strictly after the split date go to the split's new index;
    every other item is resolved normally with the size check suppressed. -/
def resolveBulkTarget (collection_id : String) (item : Item)
    (split_info : Option SplitInfo) (s : SysState) : Except Err String × SysState :=
  match split_info with
  | some si =>
    match item.datetime with
    | none => (.error .pyError, s)
    | some item_date =>
      if Date.blt si.split_date item_date then (.ok si.new_index, s)
      else get_target_index_internal collection_id item false s
  | none => get_target_index_internal collection_id item false s

/-- `SyncDatetimeIndexInserter._create_bulk_actions`: one bulk action per
    item, in input order, each addressed to its resolved target. -/
def create_bulk_actions (collection_id : String) (items : List Item)
    (split_info : Option SplitInfo) (s : SysState) :
    Except Err (List BulkAction) × SysState :=
  match items with
  | [] => (.ok [], s)
  | item :: rest =>
    match resolveBulkTarget collection_id item split_info s with
    | (.error e, s2) => (.error e, s2)
    | (.ok target_index, s2) =>
      match create_bulk_actions collection_id rest split_info s2 with
      | (.error e, s3) => (.error e, s3)
      | (.ok acts, s3) =>
        (.ok (⟨target_index, mk_item_id item.id item.collection, item⟩ :: acts), s3)

/-- `SyncDatetimeIndexInserter.prepare_bulk_actions`: ensure partitions
    exist, compute at most one split for the batch, then build the
    actions. -/
def prepare_bulk_actions (collection_id : String) (items : List Item)
    (s : SysState) : Except Err (List BulkAction) × SysState :=
  match ensure_indexes_exist collection_id items s with
  | (.error e, s1) => (.error e, s1)
  | (.ok _, s1) =>
    match handle_index_splitting collection_id items s1 with
    | (.error e, s2) => (.error e, s2)
    | (.ok split_info, s2) => create_bulk_actions collection_id items split_info s2

/-- The alias snapshot held by `IndexCacheManager`: base collection alias
    to its item aliases. -/
def AliasMap : Type := List (String × List String)

instance : DecidableEq AliasMap := by
  unfold AliasMap; infer_instance

/-- `IndexCacheManager` from `selection/cache_manager.py`, with wall-clock
    time made explicit (Python `time.time()` is passed as the `now`
    argument of the operations below): the cached snapshot, the timestamp
    of the last `set_cache`, and the TTL in seconds. -/
structure IndexCacheManager where
  cacheData : Option AliasMap
  timestamp : ℚ
  ttl : ℚ
deriving DecidableEq

/-- `IndexCacheManager.__init__`: empty cache, timestamp 0, given TTL
    (default 3600 s at the call sites). -/
def IndexCacheManager.init (cache_ttl_seconds : ℚ) : IndexCacheManager :=
  ⟨none, 0, cache_ttl_seconds⟩

/-- `IndexCacheManager.is_expired`: `time.time() - self._timestamp > self._ttl`. -/
def IndexCacheManager.is_expired (m : IndexCacheManager) (now : ℚ) : Bool :=
  decide (now - m.timestamp > m.ttl)

/-- `IndexCacheManager.get_cache`: the snapshot if not expired, else `None`. -/
def IndexCacheManager.get_cache (m : IndexCacheManager) (now : ℚ) :
    Option AliasMap :=
  if m.is_expired now then none else m.cacheData

/-- `IndexCacheManager.set_cache`: replace the snapshot and stamp it with
    the current time. -/
def IndexCacheManager.set_cache (m : IndexCacheManager) (data : AliasMap)
    (now : ℚ) : IndexCacheManager :=
  { m with cacheData := some data, timestamp := now }

/-- `IndexCacheManager.clear_cache`: drop the snapshot and reset the
    timestamp. -/
def IndexCacheManager.clear_cache (m : IndexCacheManager) : IndexCacheManager :=
  { m with cacheData := none, timestamp := 0 }

/-- The state `SyncDatetimeBasedIndexSelector.__init__` stores on the
    singleton instance: the client captured at first construction and the
    instance's cache manager. -/
structure SelectorInstance where
  client : String
  cache_manager : IndexCacheManager
deriving DecidableEq

/-- `SyncDatetimeBasedIndexSelector.__new__` plus `__init__`: the class
    attribute `_instance` is the `Option SelectorInstance` state.  A first
    construction creates and stores the instance (with a fresh
    `IndexCacheManager`, TTL 3600); any later construction returns the
    stored instance unchanged — the `_initialized` guard skips `__init__`,
    so the `client` argument is ignored. -/
def selectorConstruct (client : String) (inst : Option SelectorInstance) :
    SelectorInstance × Option SelectorInstance :=
  match inst with
  | some i => (i, some i)
  | none =>
    let i : SelectorInstance := ⟨client, IndexCacheManager.init 3600⟩
    (i, some i)

deriving instance DecidableEq for Except

/-- Event classifier: alias-rename engine calls. -/
def isUpdateAliasEvent : Event → Bool
  | .updateAlias _ _ => true
  | _ => false

/-- Event classifier: engine stats calls (the partition-size check). -/
def isStatsEvent : Event → Bool
  | .statsCall _ => true
  | _ => false

/-- Number of engine stats calls in a log. -/
def statsCount (l : List Event) : Nat := l.countP isStatsEvent

/-- The alias snapshot a selector read observes: the cache when loaded,
    else what a reload would fetch from the engine. -/
def cacheView (s : SysState) : List PhysIndex :=
  match s.cache with
  | some m => m
  | none => s.engine

/-- The item aliases a snapshot holds for a collection id. -/
def collectionAliasesIn (collection_id : String) (m : List PhysIndex) :
    List String :=
  (m.filter (fun p => p.collectionKey == sanitizeId collection_id)).map
    (fun p => p.idxAlias)

/-- An open partition of collection key `k` starting at `S`. -/
def openP (k : String) (S : Date) : PhysIndex := ⟨k, S, openAliasName k S⟩

/-- A state holding exactly one (open) partition of collection key `k`
    starting at `S`, with a freshly loaded alias cache, the given set of
    oversized alias names, and an empty call log. -/
def oneOpenState (k : String) (S : Date) (ovr : List String) : SysState :=
  ⟨[openP k S], some [openP k S], ovr, []⟩

/-- C1 scenario: the only partition of `c1` starts at 2024-01-01 and its
    index is reported oversized. -/
def C1state : SysState :=
  ⟨[⟨"c1", ⟨2024, 1, 1⟩, "c1_2024-01-01"⟩], none, ["c1_2024-01-01"], []⟩

/-- C1 scenario: first batch item, dated 2024-01-01. -/
def C1item1 : Item := ⟨"item-1", "c1", some ⟨2024, 1, 1⟩⟩

/-- C1 scenario: second batch item, dated 2024-01-02. -/
def C1item2 : Item := ⟨"item-2", "c1", some ⟨2024, 1, 2⟩⟩

/-- C1 scenario: the batch run. -/
def C1run : Except Err (List BulkAction) × SysState :=
  prepare_bulk_actions "c1" [C1item1, C1item2] C1state

/-- C2 failing input: same partition topology as C1, batch whose first
    item is dated 2024-03-15. -/
def C2state : SysState :=
  ⟨[⟨"c1", ⟨2024, 1, 1⟩, "c1_2024-01-01"⟩], none, ["c1_2024-01-01"], []⟩

/-- C2 failing input: the batch items. -/
def C2items : List Item := [⟨"item-1", "c1", some ⟨2024, 3, 15⟩⟩]

/-- C2 failing input: the split computation run. -/
def C2run : Except Err (Option SplitInfo) × SysState :=
  handle_index_splitting "c1" C2items C2state

/-- C3 counterexample: single open oversized partition of `c1` starting at
    2024-01-01. -/
def C3state : SysState :=
  ⟨[⟨"c1", ⟨2024, 1, 1⟩, "c1_2024-01-01"⟩], none, ["c1_2024-01-01"], []⟩

/-- C3 counterexample: the single-item write that triggers the rollover,
    dated 2024-03-15. -/
def C3trigger : Item := ⟨"trigger", "c1", some ⟨2024, 3, 15⟩⟩

/-- C3 counterexample: the single-item resolution run. -/
def C3run : Except Err String × SysState :=
  get_target_index "c1" C3trigger C3state

/-- C4 counterexample: single open partition of `c1` starting at
    2024-01-10; the incoming item is dated 2024-01-05. -/
def C4state : SysState :=
  ⟨[⟨"c1", ⟨2024, 1, 10⟩, "c1_2024-01-10"⟩], none, [], []⟩

/-- C4 counterexample: the early-dated single-item resolution run. -/
def C4run : Except Err String × SysState :=
  get_target_index "c1" ⟨"early", "c1", some ⟨2024, 1, 5⟩⟩ C4state

/-- C5 counterexample: `c1` has a closed partition (2023-01-01, closed
    2023-12-31) and an open oversized partition starting 2024-01-01. -/
def C5state : SysState :=
  ⟨[⟨"c1", ⟨2023, 1, 1⟩, "c1_2023-01-01-2023-12-31"⟩,
    ⟨"c1", ⟨2024, 1, 1⟩, "c1_2024-01-01"⟩], none, ["c1_2024-01-01"], []⟩

/-- C5 counterexample: a batch spanning the rollover boundary — first item
    dated 2024-03-15 (computes the split), second dated 2023-06-06
    (before the split date). -/
def C5items : List Item :=
  [⟨"i1", "c1", some ⟨2024, 3, 15⟩⟩, ⟨"i2", "c1", some ⟨2023, 6, 6⟩⟩]

/-- C5 counterexample: the batch run. -/
def C5run : Except Err (List BulkAction) × SysState :=
  prepare_bulk_actions "c1" C5items C5state

/-- C1: counterexample.  In the spec's example (collection `c1`, one
    existing oversized partition starting 2024-01-01, batch dated
    2024-01-01 and 2024-01-02), the batch does NOT route the second item
    to `c1_2024-01-02`, and no alias rename is issued: the first item's
    date equals the partition's start date, so the same-day guard of
    `_create_new_index_for_split` suppresses the split. -/
theorem C1_counterexample :
    C1run.1.map (fun l => l.map (fun a => a.index)) ≠
      Except.ok ["c1_2024-01-01", "c1_2024-01-02"] ∧
    C1run.2.events.countP isUpdateAliasEvent = 0 := by
  decide

/-- C1 (amended): in that same scenario both items are routed to the
    existing partition `c1_2024-01-01`, the engine topology is unchanged
    (in particular the old alias is not renamed), and the only engine
    call besides alias reads is the single stats check. -/
theorem C1_amended_behavior :
    C1run.1 = Except.ok
      [⟨"c1_2024-01-01", "item-1|c1", C1item1⟩,
       ⟨"c1_2024-01-01", "item-2|c1", C1item2⟩] ∧
    C1run.2.engine = [⟨"c1", ⟨2024, 1, 1⟩, "c1_2024-01-01"⟩] ∧
    C1run.2.events = [Event.statsCall "c1_2024-01-01"] := by
  decide

/-- C2: evaluation of the batch split computation at the failing input.
    With the only partition `c1_2024-01-01` oversized and the first batch
    item dated 2024-03-15, `_handle_index_splitting` closes the old alias
    with end date 2024-01-01 — the partition's own start date, extracted
    from the index name — and opens `c1_2024-01-02`, remembering split
    date 2024-01-01; the claim (and the single-item path
    `handle_oversized_index_sync`) requires close at 2024-03-15, a new
    partition `c1_2024-03-16`, and split date 2024-03-15. -/
theorem C2_split_uses_partition_start :
    C2run.1 = Except.ok (some ⟨⟨2024, 1, 1⟩, "c1_2024-01-02"⟩) ∧
    C2run.2.events =
      [Event.statsCall "c1_2024-01-01",
       Event.updateAlias "c1_2024-01-01" ⟨2024, 1, 1⟩,
       Event.createIndex "c1" ⟨2024, 1, 2⟩] ∧
    C2run.2.engine =
      [⟨"c1", ⟨2024, 1, 1⟩, "c1_2024-01-01-2024-01-01"⟩,
       ⟨"c1", ⟨2024, 1, 2⟩, "c1_2024-01-02"⟩] := by
  decide

/-- C3: counterexample.  A single-item write dated 2024-03-15 against the
    oversized open partition `c1_2024-01-01` detects a rollover, and the
    item that triggered it is routed to the NEW partition `c1_2024-03-16`
    — not to the old partition (neither under its open alias
    `c1_2024-01-01` nor under its closed alias
    `c1_2024-01-01-2024-03-15`). -/
theorem C3_counterexample :
    C3run.1 = Except.ok "c1_2024-03-16" ∧
    C3run.1 ≠ Except.ok "c1_2024-01-01" ∧
    C3run.1 ≠ Except.ok "c1_2024-01-01-2024-03-15" := by
  decide

/-- C4: counterexample.  An item dated 2024-01-05 arriving when the
    earliest (only) partition of `c1` starts 2024-01-10 creates the new
    earliest partition and closes it at 2024-01-09; the PREVIOUS earliest
    partition keeps its alias `c1_2024-01-10` unchanged — no alias
    `c1_2024-01-10-2024-01-09` exists, contrary to the claim that the
    previous partition's alias gains the end date. -/
theorem C4_counterexample :
    C4run.1 = Except.ok "c1_2024-01-05-2024-01-09" ∧
    C4run.2.engine =
      [⟨"c1", ⟨2024, 1, 10⟩, "c1_2024-01-10"⟩,
       ⟨"c1", ⟨2024, 1, 5⟩, "c1_2024-01-05-2024-01-09"⟩] ∧
    (C4run.2.engine.map (fun p => p.idxAlias)).contains
      "c1_2024-01-10-2024-01-09" = false := by
  decide

/-- C5: counterexample.  In a batch that computes a split (first item
    2024-03-15 against the oversized `c1_2024-01-01`, split date
    2024-01-01), the second item, dated 2023-06-06 — before the split
    date — is routed to the closed partition
    `c1_2023-01-01-2023-12-31`, not to the rolled-over ("old") partition
    `c1_2024-01-01` (closed as `c1_2024-01-01-2024-01-01`). -/
theorem C5_counterexample :
    C5run.1.map (fun l => l.map (fun a => a.index)) =
      Except.ok ["c1_2024-01-02", "c1_2023-01-01-2023-12-31"] ∧
    ("c1_2023-01-01-2023-12-31" : String) ≠ "c1_2024-01-01" ∧
    ("c1_2023-01-01-2023-12-31" : String) ≠ "c1_2024-01-01-2024-01-01" := by
  decide

/-- C7: `UnfilteredIndexSelector.select_indexes` ignores its datetime
    argument entirely — for any collections and any two datetime ranges it
    returns the same comma-joined index string. -/
theorem C7_unfiltered_ignores_datetime (ids : Option (List String))
    (g1 l1 g2 l2 : Option Date) (s : SysState) :
    unfiltered_select_indexes ids g1 l1 s = unfiltered_select_indexes ids g2 l2 s :=
  rfl

/-- C8: resolving the target partition for an item whose
    `properties.datetime` is missing/null fails with the HTTP 400 of
    `_validate_product_datetime`, and the state — engine topology, cache,
    call log — is returned unchanged: no partition is created or
    selected, and nothing is retried. -/
theorem C8_missing_datetime_http400 (collection_id : String) (p : Item)
    (s : SysState) (h : p.datetime = none) :
    get_target_index collection_id p s = (Except.error Err.http400, s) := by
  unfold get_target_index get_target_index_internal validate_product_datetime
  rw [h]

/-- C8: witness — a concrete item with a missing datetime. -/
theorem C8_missing_datetime_http400_witness :
    (Item.mk "x" "c1" none).datetime = none ∧
    get_target_index "c1" (Item.mk "x" "c1" none) C1state =
      (Except.error Err.http400, C1state) :=
  ⟨rfl, C8_missing_datetime_http400 "c1" (Item.mk "x" "c1" none) C1state rfl⟩

/-- C10: `SyncDatetimeBasedIndexSelector` is a singleton.  Constructing
    once stores the instance (capturing that construction's client);
    constructing again with any other client returns the very same
    instance and leaves the stored state unchanged, and in general any
    construction against an existing instance is the identity. -/
theorem C10_selector_singleton (client1 client2 : String) :
    (selectorConstruct client2 (selectorConstruct client1 none).2).1 =
      (selectorConstruct client1 none).1 ∧
    (selectorConstruct client2 (selectorConstruct client1 none).2).2 =
      (selectorConstruct client1 none).2 ∧
    (selectorConstruct client2 (selectorConstruct client1 none).2).1.client =
      client1 ∧
    (∀ i : SelectorInstance, ∀ cl : String, selectorConstruct cl (some i) = (i, some i)) :=
  ⟨rfl, rfl, rfl, fun _ _ => rfl⟩

/-- C6: the TTL cache round-trip.  After `set_cache data` at time `tset`,
    a `get_cache` at time `tnow` returns `data` unchanged while
    `tnow - tset ≤ ttl`, and returns `None` once strictly more than `ttl`
    seconds have elapsed. -/
theorem C6_cache_ttl (m : IndexCacheManager) (data : AliasMap) (tset tnow : ℚ) :
    (tnow - tset ≤ m.ttl →
      (m.set_cache data tset).get_cache tnow = some data) ∧
    (tnow - tset > m.ttl →
      (m.set_cache data tset).get_cache tnow = none) := by
  refine ⟨fun h => ?_, fun h => ?_⟩
  · have hx : decide (tnow - tset > m.ttl) = false := decide_eq_false (not_lt.mpr h)
    simp [IndexCacheManager.set_cache, IndexCacheManager.get_cache,
      IndexCacheManager.is_expired, hx]
  · have hx : decide (tnow - tset > m.ttl) = true := decide_eq_true h
    simp [IndexCacheManager.set_cache, IndexCacheManager.get_cache,
      IndexCacheManager.is_expired, hx]

/-- C6: witness — TTL 3600, set at time 0, reads at 3600 and 3601. -/
theorem C6_cache_ttl_witness :
    ((3600 : ℚ) - 0 ≤ (IndexCacheManager.init 3600).ttl) ∧
    ((IndexCacheManager.init 3600).set_cache [] 0).get_cache 3600 = some [] ∧
    ((3601 : ℚ) - 0 > (IndexCacheManager.init 3600).ttl) ∧
    ((IndexCacheManager.init 3600).set_cache [] 0).get_cache 3601 = none :=
  ⟨by norm_num [IndexCacheManager.init],
   (C6_cache_ttl (IndexCacheManager.init 3600) [] 0 3600).1
     (by norm_num [IndexCacheManager.init]),
   by norm_num [IndexCacheManager.init],
   (C6_cache_ttl (IndexCacheManager.init 3600) [] 0 3601).2
     (by norm_num [IndexCacheManager.init])⟩

/-- Date strict comparison is irreflexive. -/
theorem blt_irrefl (a : Date) : Date.blt a a = false := by
  simp [Date.blt]

/-- Date strict comparison is asymmetric. -/
theorem blt_asymm {a b : Date} (h : Date.blt a b = true) :
    Date.blt b a = false := by
  simp [Date.blt] at h ⊢
  omega

/-- Date strict comparison is transitive. -/
theorem blt_trans {a b c : Date} (h1 : Date.blt a b = true)
    (h2 : Date.blt b c = true) : Date.blt a c = true := by
  simp [Date.blt] at h1 h2 ⊢
  omega

/-- Strictly smaller dates are distinct. -/
theorem ne_of_blt {a b : Date} (h : Date.blt a b = true) : a ≠ b := by
  intro he
  subst he
  rw [blt_irrefl] at h
  exact Bool.false_ne_true h

/-- Every date precedes its successor day. -/
theorem blt_nextDay (d : Date) : Date.blt d (Date.nextDay d) = true := by
  unfold Date.nextDay
  split_ifs <;> simp [Date.blt]

/-- No valid date lies strictly between a date and its successor day:
    from `a < b` (with `b` a valid calendar date) follows `¬ b < a + 1 day`. -/
theorem nextDay_not_lt {a b : Date} (hb : DateValid b)
    (h : Date.blt a b = true) : Date.blt b (Date.nextDay a) = false := by
  obtain ⟨hm1, hm2, hd1, hd2⟩ := hb
  unfold Date.nextDay
  by_cases h1 : a.day < daysInMonth a.year a.month
  · rw [if_pos h1]
    simp [Date.blt] at h ⊢
    omega
  · rw [if_neg h1]
    by_cases h2 : a.month < 12
    · rw [if_pos h2]
      simp [Date.blt] at h ⊢
      rcases h with hy | ⟨hy, hm | ⟨hm, hd⟩⟩
      · omega
      · omega
      · rw [hy, hm] at h1
        omega
    · rw [if_neg h2]
      simp [Date.blt] at h ⊢
      rcases h with hy | ⟨hy, hm | ⟨hm, hd⟩⟩
      · omega
      · omega
      · rw [hy, hm] at h1
        omega

/-- String strict comparison is irreflexive (char-list core). -/
theorem strLtCore_irrefl : ∀ l : List Char, strLtCore l l = false
  | [] => rfl
  | a :: as => by
    unfold strLtCore
    rw [if_neg (Nat.lt_irrefl a.toNat), if_neg (Nat.lt_irrefl a.toNat)]
    exact strLtCore_irrefl as

/-- String strict comparison is asymmetric (char-list core). -/
theorem strLtCore_asymm : ∀ l1 l2 : List Char,
    strLtCore l1 l2 = true → strLtCore l2 l1 = false
  | [], [], _ => rfl
  | [], _ :: _, _ => rfl
  | _ :: _, [], h => by cases h
  | a :: as, b :: bs, h => by
    unfold strLtCore at h ⊢
    by_cases hab : a.toNat < b.toNat
    · rw [if_neg (by omega : ¬ b.toNat < a.toNat), if_pos (by omega : a.toNat < b.toNat)]
    · rw [if_neg hab] at h
      by_cases hba : b.toNat < a.toNat
      · rw [if_pos hba] at h
        cases h
      · rw [if_neg hba] at h
        rw [if_neg hba, if_neg hab]
        exact strLtCore_asymm as bs h

/-- String strict comparison is asymmetric. -/
theorem strLt_asymm {a b : String} (h : strLt a b = true) :
    strLt b a = false :=
  strLtCore_asymm a.data b.data h

/-- Strictly smaller strings are distinct. -/
theorem strLt_ne {a b : String} (h : strLt a b = true) : a ≠ b := by
  intro he
  subst he
  rw [strLt, strLtCore_irrefl] at h
  exact Bool.false_ne_true h

/-- Joining a one-element list with a separator is the element itself. -/
theorem intercalate_single (x : String) : String.intercalate "," [x] = x := by
  simp [String.intercalate, String.intercalate.go]

/-- C4 (amended): for every item dated strictly before the earliest known
    partition's start date, target-index resolution creates a new earliest
    partition starting at the item's date and immediately closes it: the
    NEW partition's alias gains the end date `previous earliest start − 1
    day` (the resolved target), while the previous earliest partition's
    alias is unchanged.  Stated for a collection whose only partition is
    the open one starting at `E`; the name-hygiene hypotheses say that the
    date extractor reads the start date back from the generated alias and
    that the two alias names differ. -/
theorem C4_amended (c : String) (E D : Date) (ovr : List String) (p : Item)
    (hp : p.datetime = some D)
    (hDE : Date.blt D E = true)
    (hx1 : extract_first_date_from_index (openAliasName (sanitizeId c) E) = E)
    (hne : openAliasName (sanitizeId c) E ≠ openAliasName (sanitizeId c) D) :
    (get_target_index c p (oneOpenState (sanitizeId c) E ovr)).1 =
      Except.ok (closedAliasName (sanitizeId c) D (Date.prevDay E)) ∧
    (get_target_index c p (oneOpenState (sanitizeId c) E ovr)).2.engine =
      [openP (sanitizeId c) E,
       ⟨sanitizeId c, D, closedAliasName (sanitizeId c) D (Date.prevDay E)⟩] := by
  have hED : (E == D) = false := beq_eq_false_iff_ne.mpr (Ne.symm (ne_of_blt hDE))
  have hble : Date.ble E D = false := by simp [Date.ble, hDE]
  have hne' : (openAliasName (sanitizeId c) E == openAliasName (sanitizeId c) D) =
      false := beq_eq_false_iff_ne.mpr hne
  constructor <;>
    simp [get_target_index, get_target_index_internal, validate_product_datetime,
      hp, oneOpenState, openP, select_indexes, selectLoop, get_collection_indexes,
      get_aliases, load_aliases, refresh_cache, filter_indexes_by_datetime, fidGo,
      fidKeep, sortStr, insertStr, handle_early_date_sync, handle_new_collection_sync,
      create_datetime_index_sync, update_index_alias_sync, addEvent,
      closedAliasName, hx1, hble, hDE, hED, hne']
  exact fun h => absurd h hne

/-- C4: witness — collection `c1`, earliest partition starting 2024-01-10,
    item dated 2024-01-05. -/
theorem C4_amended_witness :
    Date.blt ⟨2024, 1, 5⟩ ⟨2024, 1, 10⟩ = true ∧
    extract_first_date_from_index (openAliasName (sanitizeId "c1") ⟨2024, 1, 10⟩) =
      ⟨2024, 1, 10⟩ ∧
    openAliasName (sanitizeId "c1") ⟨2024, 1, 10⟩ ≠
      openAliasName (sanitizeId "c1") ⟨2024, 1, 5⟩ ∧
    (get_target_index "c1" ⟨"early", "c1", some ⟨2024, 1, 5⟩⟩
        (oneOpenState (sanitizeId "c1") ⟨2024, 1, 10⟩ [])).1 =
      Except.ok (closedAliasName (sanitizeId "c1") ⟨2024, 1, 5⟩
        (Date.prevDay ⟨2024, 1, 10⟩)) ∧
    (get_target_index "c1" ⟨"early", "c1", some ⟨2024, 1, 5⟩⟩
        (oneOpenState (sanitizeId "c1") ⟨2024, 1, 10⟩ [])).2.engine =
      [openP (sanitizeId "c1") ⟨2024, 1, 10⟩,
       ⟨sanitizeId "c1", ⟨2024, 1, 5⟩,
        closedAliasName (sanitizeId "c1") ⟨2024, 1, 5⟩ (Date.prevDay ⟨2024, 1, 10⟩)⟩] :=
  ⟨by decide, by decide, by decide,
   (C4_amended "c1" ⟨2024, 1, 10⟩ ⟨2024, 1, 5⟩ [] ⟨"early", "c1", some ⟨2024, 1, 5⟩⟩
     rfl (by decide) (by decide) (by decide)).1,
   (C4_amended "c1" ⟨2024, 1, 10⟩ ⟨2024, 1, 5⟩ [] ⟨"early", "c1", some ⟨2024, 1, 5⟩⟩
     rfl (by decide) (by decide) (by decide)).2⟩

/-- C3 (amended): for every single-item write that detects a rollover
    (collection with one open partition starting `S`, reported oversized,
    item dated `D` with `S < D`), the write closes the old partition at
    `D`, opens a new partition starting `D + 1 day`, and routes the
    TRIGGERING item itself to that new partition; afterwards every other
    item dated on the rollover day `D` is routed to the old (now closed)
    partition, and items dated strictly after `D` resolve to the new
    partition.  The name-hygiene hypotheses pin down date extraction from
    the generated aliases, their lexicographic order, and the engine's
    size report for the two aliases. -/
theorem C3_amended (c : String) (S D : Date) (ovr : List String) (p : Item)
    (hp : p.datetime = some D)
    (hSD : Date.blt S D = true)
    (hov : ovr.contains (openAliasName (sanitizeId c) S) = true)
    (hov2 : ovr.contains (openAliasName (sanitizeId c) (Date.nextDay D)) = false)
    (hx1 : extract_first_date_from_index (openAliasName (sanitizeId c) S) = S)
    (hx2 : extract_first_date_from_index (closedAliasName (sanitizeId c) S D) = S)
    (hx3 : extract_first_date_from_index
      (openAliasName (sanitizeId c) (Date.nextDay D)) = Date.nextDay D)
    (hsort : strLt (closedAliasName (sanitizeId c) S D)
      (openAliasName (sanitizeId c) (Date.nextDay D)) = true) :
    (get_target_index c p (oneOpenState (sanitizeId c) S ovr)).1 =
      Except.ok (openAliasName (sanitizeId c) (Date.nextDay D)) ∧
    (get_target_index c p (oneOpenState (sanitizeId c) S ovr)).2.engine =
      [⟨sanitizeId c, S, closedAliasName (sanitizeId c) S D⟩,
       openP (sanitizeId c) (Date.nextDay D)] ∧
    (∀ q : Item, q.datetime = some D →
      (get_target_index c q
        (get_target_index c p (oneOpenState (sanitizeId c) S ovr)).2).1 =
          Except.ok (closedAliasName (sanitizeId c) S D)) ∧
    (∀ q : Item, ∀ Dq : Date, q.datetime = some Dq → DateValid Dq →
      Date.blt D Dq = true →
      (get_target_index c q
        (get_target_index c p (oneOpenState (sanitizeId c) S ovr)).2).1 =
          Except.ok (openAliasName (sanitizeId c) (Date.nextDay D))) := by
  have hDS : Date.blt D S = false := blt_asymm hSD
  have hDnd : Date.blt D (Date.nextDay D) = true := blt_nextDay D
  have hovm : openAliasName (sanitizeId c) S ∈ ovr := by simpa using hov
  have hov2m : openAliasName (sanitizeId c) (Date.nextDay D) ∉ ovr := by
    simpa using hov2
  have hDSne : D ≠ S := Ne.symm (ne_of_blt hSD)
  have hSnd : S ≠ Date.nextDay D := ne_of_blt (blt_trans hSD hDnd)
  have hbleSD : Date.ble S D = true := by simp [Date.ble, hDS]
  have hbleNdD : Date.ble (Date.nextDay D) D = false := by
    simp [Date.ble, hDnd]
  have hsort2 : strLt (openAliasName (sanitizeId c) (Date.nextDay D))
      (closedAliasName (sanitizeId c) S D) = false := strLt_asymm hsort
  have hnamene : closedAliasName (sanitizeId c) S D ≠
      openAliasName (sanitizeId c) (Date.nextDay D) := strLt_ne hsort
  have htrig : get_target_index c p (oneOpenState (sanitizeId c) S ovr) =
      (Except.ok (openAliasName (sanitizeId c) (Date.nextDay D)),
        ⟨[⟨sanitizeId c, S, closedAliasName (sanitizeId c) S D⟩,
          openP (sanitizeId c) (Date.nextDay D)],
         some [⟨sanitizeId c, S, closedAliasName (sanitizeId c) S D⟩,
           openP (sanitizeId c) (Date.nextDay D)],
         ovr,
         [Event.statsCall (openAliasName (sanitizeId c) S),
          Event.updateAlias (openAliasName (sanitizeId c) S) D,
          Event.createIndex (sanitizeId c) (Date.nextDay D)]⟩) := by
    simp [get_target_index, get_target_index_internal, validate_product_datetime,
      hp, oneOpenState, openP, select_indexes, selectLoop, get_collection_indexes,
      get_aliases, load_aliases, refresh_cache, filter_indexes_by_datetime, fidGo,
      fidKeep, sortStr, insertStr, handle_oversized_index_sync,
      is_index_oversized_sync, create_datetime_index_sync, update_index_alias_sync,
      addEvent, closedAliasName, intercalate_single, hx1, hbleSD, hDS, hovm,
      hDSne, hSnd]
  refine ⟨by rw [htrig], by rw [htrig], ?_, ?_⟩
  · intro q hq
    rw [htrig]
    simp [get_target_index, get_target_index_internal, validate_product_datetime,
      hq, openP, select_indexes, selectLoop, get_collection_indexes,
      get_aliases, load_aliases, refresh_cache, filter_indexes_by_datetime, fidGo,
      fidKeep, sortStr, insertStr, intercalate_single,
      hx2, hx3, hsort2, hDS, hDnd, hbleSD, hbleNdD, hnamene]
  · intro q Dq hq hqv hlt
    have hnd : Date.blt Dq (Date.nextDay D) = false := nextDay_not_lt hqv hlt
    have hSDq : Date.blt Dq S = false := blt_asymm (blt_trans hSD hlt)
    have hbleSDq : Date.ble S Dq = true := by simp [Date.ble, hSDq]
    have hbleNdDq : Date.ble (Date.nextDay D) Dq = true := by
      simp [Date.ble, hnd]
    rw [htrig]
    simp [get_target_index, get_target_index_internal, validate_product_datetime,
      hq, openP, select_indexes, selectLoop, get_collection_indexes,
      get_aliases, load_aliases, refresh_cache, filter_indexes_by_datetime, fidGo,
      fidKeep, sortStr, insertStr, intercalate_single, is_index_oversized_sync,
      addEvent, hx2, hx3, hsort2, hnd, hSDq, hbleSDq, hbleNdDq, hov2m, hnamene]

/-- C3: witness — collection `c1`, oversized partition starting 2024-01-01,
    trigger dated 2024-03-15, follow-ups dated 2024-03-15 and 2024-03-20. -/
theorem C3_amended_witness :
    Date.blt ⟨2024, 1, 1⟩ ⟨2024, 3, 15⟩ = true ∧
    ["c1_2024-01-01"].contains (openAliasName (sanitizeId "c1") ⟨2024, 1, 1⟩) =
      true ∧
    strLt (closedAliasName (sanitizeId "c1") ⟨2024, 1, 1⟩ ⟨2024, 3, 15⟩)
      (openAliasName (sanitizeId "c1") (Date.nextDay ⟨2024, 3, 15⟩)) = true ∧
    (get_target_index "c1" ⟨"t", "c1", some ⟨2024, 3, 15⟩⟩
        (oneOpenState (sanitizeId "c1") ⟨2024, 1, 1⟩ ["c1_2024-01-01"])).1 =
      Except.ok (openAliasName (sanitizeId "c1") (Date.nextDay ⟨2024, 3, 15⟩)) ∧
    (get_target_index "c1" ⟨"q", "c1", some ⟨2024, 3, 15⟩⟩
        (get_target_index "c1" ⟨"t", "c1", some ⟨2024, 3, 15⟩⟩
          (oneOpenState (sanitizeId "c1") ⟨2024, 1, 1⟩ ["c1_2024-01-01"])).2).1 =
      Except.ok (closedAliasName (sanitizeId "c1") ⟨2024, 1, 1⟩ ⟨2024, 3, 15⟩) ∧
    (get_target_index "c1" ⟨"q2", "c1", some ⟨2024, 3, 20⟩⟩
        (get_target_index "c1" ⟨"t", "c1", some ⟨2024, 3, 15⟩⟩
          (oneOpenState (sanitizeId "c1") ⟨2024, 1, 1⟩ ["c1_2024-01-01"])).2).1 =
      Except.ok (openAliasName (sanitizeId "c1") (Date.nextDay ⟨2024, 3, 15⟩)) :=
  ⟨by decide, by decide, by decide,
   (C3_amended "c1" ⟨2024, 1, 1⟩ ⟨2024, 3, 15⟩ ["c1_2024-01-01"]
     ⟨"t", "c1", some ⟨2024, 3, 15⟩⟩ rfl (by decide) (by decide) (by decide)
     (by decide) (by decide) (by decide) (by decide)).1,
   (C3_amended "c1" ⟨2024, 1, 1⟩ ⟨2024, 3, 15⟩ ["c1_2024-01-01"]
     ⟨"t", "c1", some ⟨2024, 3, 15⟩⟩ rfl (by decide) (by decide) (by decide)
     (by decide) (by decide) (by decide) (by decide)).2.2.1
     ⟨"q", "c1", some ⟨2024, 3, 15⟩⟩ rfl,
   (C3_amended "c1" ⟨2024, 1, 1⟩ ⟨2024, 3, 15⟩ ["c1_2024-01-01"]
     ⟨"t", "c1", some ⟨2024, 3, 15⟩⟩ rfl (by decide) (by decide) (by decide)
     (by decide) (by decide) (by decide) (by decide)).2.2.2
     ⟨"q2", "c1", some ⟨2024, 3, 20⟩⟩ ⟨2024, 3, 20⟩ rfl (by decide) (by decide)⟩

/-- A collection read returns the aliases of the observed snapshot. -/
theorem gci_fst (collection_id : String) (s : SysState) :
    (get_collection_indexes collection_id s).1 =
      collectionAliasesIn collection_id (cacheView s) := by
  cases h : s.cache <;>
    simp [get_collection_indexes, get_aliases, load_aliases, cacheView,
      collectionAliasesIn, h]

/-- A collection read leaves the observed snapshot unchanged. -/
theorem gci_view (collection_id : String) (s : SysState) :
    cacheView (get_collection_indexes collection_id s).2 = cacheView s := by
  cases h : s.cache <;>
    simp [get_collection_indexes, get_aliases, load_aliases, cacheView, h]

/-- When no named collection has a partition matching the range in the
    observed snapshot, the selection loop collects nothing. -/
theorem selectLoop_nil (gte lte : Option Date) :
    ∀ (ids : List String) (s : SysState),
    (∀ id ∈ ids,
      filter_indexes_by_datetime (collectionAliasesIn id (cacheView s)) gte lte = []) →
    (selectLoop gte lte ids s).1 = []
  | [], _, _ => rfl
  | c :: cs, s, h => by
    simp only [selectLoop]
    rw [gci_fst c s, h c (List.mem_cons_self c cs)]
    have hrest : (selectLoop gte lte cs (get_collection_indexes c s).2).1 = [] :=
      selectLoop_nil gte lte cs (get_collection_indexes c s).2
        (fun id hid => by rw [gci_view c s]; exact h id (List.mem_cons_of_mem c hid))
    simp [hrest]

/-- C9: with explicitly named collections none of whose indexed partitions
    match the datetime range, `select_indexes` returns the empty string —
    not the catalog-wide wildcard; the wildcard is returned exactly when
    the collection-id list is absent or empty. -/
theorem C9_no_match_empty_string (ids : List String) (gte lte : Option Date)
    (s : SysState) (hne : ids ≠ [])
    (hnm : ∀ id ∈ ids,
      filter_indexes_by_datetime (collectionAliasesIn id (cacheView s)) gte lte = []) :
    (select_indexes (some ids) gte lte s).1 = "" ∧
    (select_indexes (some ids) gte lte s).1 ≠ ITEM_INDICES ∧
    (∀ s2 : SysState, (select_indexes none gte lte s2).1 = ITEM_INDICES) ∧
    (∀ s2 : SysState, (select_indexes (some []) gte lte s2).1 = ITEM_INDICES) := by
  obtain ⟨c, cs, rfl⟩ := List.exists_cons_of_ne_nil hne
  have hloop := selectLoop_nil gte lte (c :: cs) s hnm
  refine ⟨?_, ?_, fun s2 => rfl, fun s2 => rfl⟩
  · simp [select_indexes, hloop]
  · simp [select_indexes, hloop, ITEM_INDICES, itemsPre]

/-- C9: witness — collections `a`, `b` against an empty catalog. -/
theorem C9_no_match_empty_string_witness :
    (["a", "b"] : List String) ≠ [] ∧
    (∀ id ∈ (["a", "b"] : List String),
      filter_indexes_by_datetime
        (collectionAliasesIn id (cacheView ⟨[], none, [], []⟩)) none none = []) ∧
    (select_indexes (some ["a", "b"]) none none ⟨[], none, [], []⟩).1 = "" ∧
    (select_indexes (some ["a", "b"]) none none ⟨[], none, [], []⟩).1 ≠
      ITEM_INDICES ∧
    (select_indexes none none none ⟨[], none, [], []⟩).1 = ITEM_INDICES :=
  ⟨by decide, by decide,
   (C9_no_match_empty_string ["a", "b"] none none ⟨[], none, [], []⟩
     (by decide) (by decide)).1,
   (C9_no_match_empty_string ["a", "b"] none none ⟨[], none, [], []⟩
     (by decide) (by decide)).2.1,
   (C9_no_match_empty_string ["a", "b"] none none ⟨[], none, [], []⟩
     (by decide) (by decide)).2.2.1 ⟨[], none, [], []⟩⟩

/-- Cache loads do not touch the call log. -/
theorem ev_get_aliases (s : SysState) : (get_aliases s).2.events = s.events := by
  cases h : s.cache <;> simp [get_aliases, load_aliases, h]

/-- Collection reads do not touch the call log. -/
theorem ev_gci (collection_id : String) (s : SysState) :
    (get_collection_indexes collection_id s).2.events = s.events := by
  simp [get_collection_indexes, ev_get_aliases]

/-- Cache refreshes do not touch the call log. -/
theorem ev_refresh (s : SysState) : (refresh_cache s).2.events = s.events := rfl

/-- The selection loop does not touch the call log. -/
theorem ev_selectLoop (gte lte : Option Date) :
    ∀ (ids : List String) (s : SysState),
    (selectLoop gte lte ids s).2.events = s.events
  | [], _ => rfl
  | c :: cs, s => by
    simp only [selectLoop]
    rw [ev_selectLoop gte lte cs, ev_gci]

/-- Index selection does not touch the call log. -/
theorem ev_select (ids : Option (List String)) (gte lte : Option Date)
    (s : SysState) : (select_indexes ids gte lte s).2.events = s.events := by
  match ids with
  | none => rfl
  | some [] => rfl
  | some (c :: cs) => simp [select_indexes, ev_selectLoop]

/-- Index creation performs no stats call. -/
theorem sc_create (c : String) (d : Date) (s : SysState) :
    statsCount (create_datetime_index_sync c d s).2.events =
      statsCount s.events := by
  simp [create_datetime_index_sync, addEvent, statsCount, List.countP_append,
    isStatsEvent]

/-- Alias renaming performs no stats call. -/
theorem sc_update (e : Date) (o : String) (s : SysState) :
    statsCount (update_index_alias_sync e o s).2.events =
      statsCount s.events := by
  simp [update_index_alias_sync, addEvent, statsCount, List.countP_append,
    isStatsEvent]

/-- New-collection handling performs no stats call. -/
theorem sc_handle_new (c : String) (d : Date) (s : SysState) :
    statsCount (handle_new_collection_sync c d s).2.events =
      statsCount s.events := by
  simp [handle_new_collection_sync, sc_create]

/-- Early-date handling performs no stats call. -/
theorem sc_handle_early (c : String) (sd ed : Date) (s : SysState) :
    statsCount (handle_early_date_sync c sd ed s).2.events =
      statsCount s.events := by
  simp [handle_early_date_sync, sc_update, sc_create]

/-- Oversize handling itself performs no stats call (its caller already
    performed the check). -/
theorem sc_handle_oversized (c t : String) (d : Date) (s : SysState) :
    statsCount (handle_oversized_index_sync c t d s).2.events =
      statsCount s.events := by
  unfold handle_oversized_index_sync
  simp only []
  split
  · simp [sc_create, sc_update]
  · rfl

/-- A stats call adds exactly one to the stats count. -/
theorem sc_stats (n : String) (s : SysState) :
    statsCount (is_index_oversized_sync n s).2.events =
      statsCount s.events + 1 := by
  simp [is_index_oversized_sync, addEvent, statsCount, List.countP_append,
    isStatsEvent]

/-- Size-check-suppressed target resolution performs no stats call: the
    `check_size := false` path of `_get_target_index_internal` never
    reaches the size manager. -/
theorem sc_gti_false (c : String) (p : Item) (s : SysState) :
    statsCount (get_target_index_internal c p false s).2.events =
      statsCount s.events := by
  unfold get_target_index_internal
  cases hv : validate_product_datetime p with
  | error e => simp
  | ok d =>
    simp only []
    split
    · simp [ev_refresh, sc_handle_new, ev_gci, ev_select]
    · split
      · simp [ev_refresh, sc_handle_early, ev_gci, ev_select]
      · split
        · simp [ev_gci, ev_select]
        · simp [ev_gci, ev_select]

/-- Split creation (rename + create) performs no stats call. -/
theorem sc_cnifs (c l : String) (p : Item) (s : SysState) :
    statsCount (create_new_index_for_split c l p s).2.events =
      statsCount s.events := by
  unfold create_new_index_for_split
  cases hp : p.datetime with
  | none => rfl
  | some d =>
    simp only []
    split
    · simp [sc_create, sc_update]
    · rfl

/-- Ensuring partitions exist performs no stats call. -/
theorem sc_ensure (c : String) (items : List Item) (s : SysState) :
    statsCount (ensure_indexes_exist c items s).2.events =
      statsCount s.events := by
  unfold ensure_indexes_exist
  simp only []
  split
  · split
    · simp [ev_gci]
    · split
      · simp [ev_gci]
      · simp [ev_refresh, sc_create, ev_gci]
  · simp [ev_gci]

/-- Per-item target choice in the batch performs no stats call. -/
theorem sc_resolveBulk (c : String) (it : Item) (si : Option SplitInfo)
    (s : SysState) :
    statsCount (resolveBulkTarget c it si s).2.events = statsCount s.events := by
  unfold resolveBulkTarget
  cases si with
  | none => exact sc_gti_false c it s
  | some si =>
    cases hd : it.datetime with
    | none => rfl
    | some d =>
      simp only []
      split
      · rfl
      · exact sc_gti_false c it s

/-- Building the bulk actions performs no stats call. -/
theorem sc_cba (c : String) (si : Option SplitInfo) :
    ∀ (items : List Item) (s : SysState),
    statsCount (create_bulk_actions c items si s).2.events = statsCount s.events
  | [], _ => rfl
  | it :: rest, s => by
    have e1 : statsCount (resolveBulkTarget c it si s).2.events =
        statsCount s.events := sc_resolveBulk c it si s
    have e2 : statsCount
        (create_bulk_actions c rest si (resolveBulkTarget c it si s).2).2.events =
        statsCount (resolveBulkTarget c it si s).2.events :=
      sc_cba c si rest (resolveBulkTarget c it si s).2
    unfold create_bulk_actions
    rcases h1 : resolveBulkTarget c it si s with ⟨r1, s2⟩
    rw [h1] at e1 e2
    cases r1 with
    | error e => simpa using e1
    | ok t =>
      simp only []
      rcases h2 : create_bulk_actions c rest si s2 with ⟨r2, s3⟩
      rw [h2] at e2
      cases r2 <;> simp_all

/-- The batch split computation performs at most one stats call. -/
theorem sc_split_le (c : String) (items : List Item) (s : SysState) :
    statsCount (handle_index_splitting c items s).2.events ≤
      statsCount s.events + 1 := by
  unfold handle_index_splitting
  simp only []
  split
  · simp [ev_gci]
  · split
    · simp [ev_gci]
    · rename_i latest fi rest
      rcases h1 : get_target_index_internal c fi false
        (get_collection_indexes c s).2 with ⟨r1, s2⟩
      have e1 : statsCount s2.events = statsCount s.events := by
        have h := sc_gti_false c fi (get_collection_indexes c s).2
        rw [h1] at h
        rw [h, ev_gci]
      cases r1 with
      | error e => simp [e1]
      | ok t =>
        simp only []
        split
        · simp [e1]
        · split
          · rw [sc_cnifs, sc_stats, e1]
          · simp [sc_stats, e1]

/-- A whole batch preparation performs at most one stats call. -/
theorem sc_prepare (c : String) (items : List Item) (s : SysState) :
    statsCount (prepare_bulk_actions c items s).2.events ≤
      statsCount s.events + 1 := by
  unfold prepare_bulk_actions
  rcases h1 : ensure_indexes_exist c items s with ⟨r1, s1⟩
  have e1 : statsCount s1.events = statsCount s.events := by
    have h := sc_ensure c items s
    rw [h1] at h
    exact h
  cases r1 with
  | error e =>
    simp only []
    omega
  | ok u =>
    simp only []
    rcases h2 : handle_index_splitting c items s1 with ⟨r2, s2⟩
    have e2 : statsCount s2.events ≤ statsCount s1.events + 1 := by
      have h := sc_split_le c items s1
      rw [h2] at h
      exact h
    cases r2 with
    | error e =>
      simp only []
      omega
    | ok si =>
      simp only []
      rw [sc_cba]
      omega

/-- Items dated strictly after the split date are routed to the split's
    new index, position by position. -/
theorem cba_routes (c : String) (si : SplitInfo) :
    ∀ (items : List Item) (s : SysState) (acts : List BulkAction) (s2 : SysState),
    create_bulk_actions c items (some si) s = (Except.ok acts, s2) →
    ∀ (j : Nat) (d : Date), items[j]?.bind Item.datetime = some d →
    Date.blt si.split_date d = true →
    acts[j]?.map BulkAction.index = some si.new_index
  | [], _, _, _, _, j, d, hd, _ => absurd hd (by simp)
  | it :: rest, s, acts, s2, h, j, d, hd, hlt => by
    unfold create_bulk_actions at h
    rcases h1 : resolveBulkTarget c it (some si) s with ⟨r1, s1⟩
    rw [h1] at h
    cases r1 with
    | error e => simp at h
    | ok t =>
      simp only [] at h
      rcases h2 : create_bulk_actions c rest (some si) s1 with ⟨r2, s3⟩
      rw [h2] at h
      cases r2 with
      | error e => simp at h
      | ok acts2 =>
        simp only [Prod.mk.injEq, Except.ok.injEq] at h
        obtain ⟨hacts, hs⟩ := h
        cases j with
        | zero =>
          simp only [List.getElem?_cons_zero, Option.some_bind] at hd
          unfold resolveBulkTarget at h1
          rw [hd] at h1
          simp only [] at h1
          rw [if_pos hlt] at h1
          simp only [Prod.mk.injEq, Except.ok.injEq] at h1
          rw [← hacts]
          simp [← h1.1]
        | succ n =>
          simp only [List.getElem?_cons_succ] at hd
          rw [← hacts]
          simp only [List.getElem?_cons_succ]
          exact cba_routes c si rest s1 acts2 s3 h2 n d hd hlt

/-- C5 (amended): whenever a batch computes a split, every item dated
    strictly after the split date is routed to the split's new partition,
    and the whole batch performs at most one partition-size check (engine
    stats call) — never one per item.  Items dated on or before the split
    date go through the normal size-suppressed per-item resolution and are
    NOT guaranteed to land in the rolled-over partition (see the
    counterexample). -/
theorem C5_amended :
    (∀ (c : String) (si : SplitInfo) (items : List Item) (s : SysState)
       (acts : List BulkAction) (s2 : SysState),
      create_bulk_actions c items (some si) s = (Except.ok acts, s2) →
      ∀ (j : Nat) (d : Date), items[j]?.bind Item.datetime = some d →
      Date.blt si.split_date d = true →
      acts[j]?.map BulkAction.index = some si.new_index) ∧
    (∀ (c : String) (items : List Item) (s : SysState),
      statsCount (prepare_bulk_actions c items s).2.events ≤
        statsCount s.events + 1) :=
  ⟨fun c si => cba_routes c si, fun c items s => sc_prepare c items s⟩

/-- C5: witness — a one-item batch routed past a split, and the stats
    bound at the C5 scenario. -/
theorem C5_amended_witness :
    create_bulk_actions "c1" [⟨"i", "c1", some ⟨2024, 1, 2⟩⟩]
        (some ⟨⟨2024, 1, 1⟩, "NEW"⟩) ⟨[], none, [], []⟩ =
      (Except.ok [⟨"NEW", "i|c1", ⟨"i", "c1", some ⟨2024, 1, 2⟩⟩⟩],
        ⟨[], none, [], []⟩) ∧
    ([⟨"i", "c1", some ⟨2024, 1, 2⟩⟩] : List Item)[0]?.bind Item.datetime =
      some ⟨2024, 1, 2⟩ ∧
    Date.blt ⟨2024, 1, 1⟩ ⟨2024, 1, 2⟩ = true ∧
    ([⟨"NEW", "i|c1", ⟨"i", "c1", some ⟨2024, 1, 2⟩⟩⟩] :
        List BulkAction)[0]?.map BulkAction.index = some "NEW" ∧
    statsCount (prepare_bulk_actions "c1" C5items C5state).2.events ≤
      statsCount C5state.events + 1 :=
  ⟨by decide, by decide, by decide,
   C5_amended.1 "c1" ⟨⟨2024, 1, 1⟩, "NEW"⟩ [⟨"i", "c1", some ⟨2024, 1, 2⟩⟩]
     ⟨[], none, [], []⟩ [⟨"NEW", "i|c1", ⟨"i", "c1", some ⟨2024, 1, 2⟩⟩⟩]
     ⟨[], none, [], []⟩ (by decide) 0 ⟨2024, 1, 2⟩ (by decide) (by decide),
   C5_amended.2 "c1" C5items C5state⟩
